import Mathlib

/-
Verification of the convenience-API layer of pypdfium2 (`src/pypdfium2/_helpers.py`):
the `PdfContext` context manager and the `render_page` helper.

Modelling choices (shallow embedding):
* A native handle (`FPDF_DOCUMENT`, `FPDF_PAGE`, `FPDF_BITMAP`) is a ctypes pointer
  that may be NULL; we model it as `Option Nat` (`Option.none` = NULL pointer).
* Every call into the native library is recorded as an `NCall` event in a trace, so
  that resource-acquisition/release order is observable.
* The native library itself is external; its behaviour is a parameter `NativeEnv`
  (page count, page sizes, which handles the allocation calls return, the bitmap
  buffer pointer and memory contents).
* Python exceptions are values `PyExc` (a type tag, the single constructor argument,
  and an optional attached traceback); a fallible computation returns `Except PyExc`.
* Python floats are modelled as rationals `ℚ`; `math.ceil` is `Int.ceil`.
-/

namespace PyPdfium2

/-- Modelled handle type: a ctypes `FPDF_DOCUMENT` pointer, `Option.none` is NULL. -/
abbrev FPDF_DOCUMENT := Option Nat

/-- Modelled handle type: a ctypes `FPDF_PAGE` pointer, `Option.none` is NULL. -/
abbrev FPDF_PAGE := Option Nat

/-- Modelled handle type: a ctypes `FPDF_BITMAP` pointer, `Option.none` is NULL. -/
abbrev FPDF_BITMAP := Option Nat

/-- Exception classes raised by the helper code. `valueError` is Python's builtin
`ValueError`; the others are modelled from the spec's error taxonomy (their class
definitions live in `pypdfium2/_exceptions.py`, which only defines empty
`Exception` subclasses). `documentLoadError` is listed because the spec names it;
whether the code ever raises it is settled by the theorems below. -/
inductive ExcType where
  | pageCountInvalidError
  | pageIndexError
  | valueError
  | documentLoadError
  deriving DecidableEq, Repr

/-- A Python exception object: its class, the single argument it was constructed
with (all messages here are strings), and the traceback attached to it
(`Option.none` when no traceback from a previous raise is attached). -/
structure PyExc where
  ty : ExcType
  value : String
  tb : Option Nat
  deriving DecidableEq, Repr

/-- One call into the native library (or, for `printTraceback`, the `print` in
`PdfContext.__exit__`), recorded in order of execution. -/
inductive NCall where
  | loadDocument (path : String) (password : Option String)
  | getPageCount (doc : FPDF_DOCUMENT)
  | loadPage (doc : FPDF_DOCUMENT) (index : Int)
  | getPageWidthF (page : FPDF_PAGE)
  | getPageHeightF (page : FPDF_PAGE)
  | bitmapCreate (width height alpha : Int)
  | fillRect (bmp : FPDF_BITMAP) (left top width height : Int) (colour : Nat)
  | renderPageBitmap (bmp : FPDF_BITMAP) (page : FPDF_PAGE)
      (startX startY sizeX sizeY : Int) (rotate : Option Int) (flags : Nat)
  | getBuffer (bmp : FPDF_BITMAP)
  | bitmapDestroy (bmp : FPDF_BITMAP)
  | closePage (page : FPDF_PAGE)
  | closeDocument (doc : FPDF_DOCUMENT)
  | printTraceback (tb : Option Nat)
  deriving DecidableEq, Repr

/-- Behaviour of the external native library (and of `os.path.abspath`), supplied
as an oracle. The ctypes bindings return values (possibly NULL pointers); they do
not raise on native failure. `mem p i` is the byte at offset `i` behind pointer
`p`, used when the bitmap buffer is read out. -/
structure NativeEnv where
  abspath : String → String
  loadDocument : String → Option String → FPDF_DOCUMENT
  getPageCount : FPDF_DOCUMENT → Int
  loadPage : FPDF_DOCUMENT → Int → FPDF_PAGE
  getPageWidthF : FPDF_PAGE → ℚ
  getPageHeightF : FPDF_PAGE → ℚ
  bitmapCreate : Int → Int → Int → FPDF_BITMAP
  getBuffer : FPDF_BITMAP → Option Nat
  mem : Nat → Nat → Nat

/-- Modelled from the spec: render-flag bit for annotation visibility (the value
comes from the native headers via the generated bindings, not from `src/`). -/
def FPDF_ANNOT : Nat := 0x01

/-- Modelled from the spec: render-flag bit for LCD-display optimisation. -/
def FPDF_LCD_TEXT : Nat := 0x02

/-- Modelled from the spec: render-flag bit for printing optimisation. -/
def FPDF_PRINTING : Nat := 0x800

/-- Modelled from the spec: the `OptimiseMode` enumeration of
`pypdfium2/_constants.py` with its three members. -/
inductive OptimiseMode where
  | none
  | lcd_display
  | printing
  deriving DecidableEq, Repr

/-- The `optimise_mode` argument as `render_page` receives it: either one of the
three enum members, or (Python being untyped) some other object, carried with its
string representation so the error message can mention it. -/
inductive OptimiseArg where
  | valid (m : OptimiseMode)
  | invalid (repr : String)
  deriving DecidableEq, Repr

/-- `_translate_rotation` from `_helpers.py`: an if/elif chain with no else branch,
so a Python call with any other rotation value falls off the end and returns
`None`, modelled as `Option.none`. -/
def _translate_rotation (rotation : Int) : Option Int :=
  if rotation = 0 then Option.some 0
  else if rotation = 90 then Option.some 1
  else if rotation = 180 then Option.some 2
  else if rotation = 270 then Option.some 3
  else Option.none

/-- Semantics of `ctypes.cast(cbuffer, POINTER(c_ubyte * n)).contents`: building
the array type raises `ValueError` for a negative element count, dereferencing a
NULL pointer raises `ValueError`, otherwise exactly `n` bytes are read from the
memory behind the pointer. -/
def ctypes_contents (env : NativeEnv) (cbuffer : Option Nat) (n : Int) :
    Except PyExc (List Nat) :=
  if n < 0 then
    Except.error (PyExc.mk ExcType.valueError "array length must not be negative" Option.none)
  else
    match cbuffer with
    | Option.none =>
        Except.error (PyExc.mk ExcType.valueError "NULL pointer access" Option.none)
    | Option.some p => Except.ok ((List.range n.toNat).map (env.mem p))

/-- BGRA→RGBA channel reordering performed by `Image.frombuffer(..., "BGRA", ...)`:
every 4-byte pixel `b g r a` becomes `r g b a`. -/
def bgra_to_rgba : List Nat → List Nat
  | b :: g :: r :: a :: rest => r :: g :: b :: a :: bgra_to_rgba rest
  | other => other

/-- A decoded `PIL.Image.Image`: mode string, pixel size, and pixel data. -/
structure PILImage where
  mode : String
  size : Int × Int
  data : List Nat
  deriving DecidableEq, Repr

/-- `Image.frombuffer("RGBA", (width, height), buffer, "raw", "BGRA", 0, 1)`:
raises `ValueError` when the buffer holds fewer than `width*height*4` bytes,
otherwise produces an RGBA image of exactly the requested size. -/
def Image_frombuffer (width height : Int) (data : List Nat) : Except PyExc PILImage :=
  if data.length < (width * height * 4).toNat then
    Except.error (PyExc.mk ExcType.valueError "not enough image data" Option.none)
  else
    Except.ok (PILImage.mk "RGBA" (width, height) (bgra_to_rgba data))

/-- `render_page` from `_helpers.py`, translated line by line. The result is the
value returned (or the exception raised) together with the trace of native calls
made, in order. -/
def render_page (env : NativeEnv) (pdf : FPDF_DOCUMENT) (page_index : Int)
    (scale : ℚ) (rotation : Int) (background_colour : Nat)
    ( render_annotations : Bool) (optimise_mode : OptimiseArg) :
    Except PyExc PILImage × List NCall :=
  let page_count := env.getPageCount pdf
  let tr0 : List NCall := [NCall.getPageCount pdf]
  if ¬ (0 ≤ page_index ∧ page_index < page_count) then
    (Except.error (PyExc.mk ExcType.pageIndexError
      ("Page index " ++ toString page_index ++ " is out of bounds for document with "
        ++ toString page_count ++ " pages.") Option.none), tr0)
  else
    let page := env.loadPage pdf page_index
    let tr1 := tr0 ++ [NCall.loadPage pdf page_index]
    let width : Int := Int.ceil (env.getPageWidthF page * scale)
    let height : Int := Int.ceil (env.getPageHeightF page * scale)
    let tr2 := tr1 ++ [NCall.getPageWidthF page, NCall.getPageHeightF page]
    let bitmap := env.bitmapCreate width height 0
    let tr3 := tr2 ++ [NCall.bitmapCreate width height 0]
    let tr4 := tr3 ++ [NCall.fillRect bitmap 0 0 width height background_colour]
    let flags0 : Nat := 0x00
    let flags1 : Nat := if render_annotations then flags0 ||| FPDF_ANNOT else flags0
    match optimise_mode with
    | OptimiseArg.invalid r =>
      (Except.error (PyExc.mk ExcType.valueError ("Invalid optimise_mode " ++ r)
        Option.none), tr4)
    | OptimiseArg.valid m =>
      let render_flags : Nat :=
        match m with
        | OptimiseMode.none => flags1
        | OptimiseMode.lcd_display => flags1 ||| FPDF_LCD_TEXT
        | OptimiseMode.printing => flags1 ||| FPDF_PRINTING
      let tr5 := tr4 ++ [NCall.renderPageBitmap bitmap page 0 0 width height
        (_translate_rotation rotation) render_flags]
      let cbuffer := env.getBuffer bitmap
      let tr6 := tr5 ++ [NCall.getBuffer bitmap]
      match ctypes_contents env cbuffer (width * height * 4) with
      | Except.error e => (Except.error e, tr6)
      | Except.ok data =>
        match Image_frombuffer width height data with
        | Except.error e => (Except.error e, tr6)
        | Except.ok pil_image =>
          let tr7 := tr6 ++ (match bitmap with
            | Option.some _ => [NCall.bitmapDestroy bitmap]
            | Option.none => [])
          let tr8 := tr7 ++ [NCall.closePage page]
          (Except.ok pil_image, tr8)

/-- The state a `PdfContext` object holds after `__init__`: the absolutised file
path and the password. -/
structure PdfContext where
  file_path : String
  password : Option String
  deriving DecidableEq, Repr

/-- `PdfContext.__init__`: stores `abspath(file_path)` and the password. -/
def PdfContext_init (env : NativeEnv) (file_path : String) (password : Option String) :
    PdfContext :=
  PdfContext.mk (env.abspath file_path) password

/-- `PdfContext.__enter__`: calls `FPDF_LoadDocument` (whose result is not
inspected), then `FPDF_GetPageCount` on whatever came back; raises
`PageCountInvalidError` when the count is `< 1`, otherwise returns the handle. -/
def PdfContext_enter (env : NativeEnv) (ctx : PdfContext) :
    Except PyExc FPDF_DOCUMENT × List NCall :=
  let pdf := env.loadDocument ctx.file_path ctx.password
  let tr := [NCall.loadDocument ctx.file_path ctx.password, NCall.getPageCount pdf]
  if env.getPageCount pdf < 1 then
    (Except.error (PyExc.mk ExcType.pageCountInvalidError
      "No pages could be recognised." Option.none), tr)
  else
    (Except.ok pdf, tr)

/-- `PdfContext.__exit__`: always calls `FPDF_CloseDocument`; when an exception is
pending it then prints the traceback and raises `exc_type(exc_value)` — a newly
constructed exception of the same class built from the single value, with no
traceback re-attached. The first component is the exception raised by `__exit__`
itself (`Option.none` when it returns normally). -/
def PdfContext_exit (pdf : FPDF_DOCUMENT) (exc : Option PyExc) :
    Option PyExc × List NCall :=
  match exc with
  | Option.none => (Option.none, [NCall.closeDocument pdf])
  | Option.some e =>
    (Option.some (PyExc.mk e.ty e.value Option.none),
     [NCall.closeDocument pdf, NCall.printTraceback e.tb])

/-- Python `with PdfContext(...) as pdf: body` semantics: if `__enter__` raises,
`__exit__` is not called and the exception propagates; otherwise the body runs
and `__exit__` runs on every exit of the body, an exception raised by `__exit__`
replacing the body's one. -/
def withPdfContext {α : Type} (env : NativeEnv) (file_path : String)
    (password : Option String) (body : FPDF_DOCUMENT → Except PyExc α × List NCall) :
    Except PyExc α × List NCall :=
  let ctx := PdfContext_init env file_path password
  match PdfContext_enter env ctx with
  | (Except.error e, tr) => (Except.error e, tr)
  | (Except.ok pdf, tr) =>
    match body pdf with
    | (Except.ok a, trb) =>
      let ex := PdfContext_exit pdf Option.none
      (Except.ok a, tr ++ trb ++ ex.2)
    | (Except.error e, trb) =>
      let ex := PdfContext_exit pdf (Option.some e)
      match ex.1 with
      | Option.some e2 => (Except.error e2, tr ++ trb ++ ex.2)
      | Option.none => (Except.error e, tr ++ trb ++ ex.2)

/-- Counts the `FPDFBitmap_Destroy` calls in a trace. -/
def countDestroy : List NCall → Nat
  | [] => 0
  | NCall.bitmapDestroy _ :: rest => countDestroy rest + 1
  | _ :: rest => countDestroy rest

/-- Counts the `FPDF_ClosePage` calls in a trace. -/
def countClosePage : List NCall → Nat
  | [] => 0
  | NCall.closePage _ :: rest => countClosePage rest + 1
  | _ :: rest => countClosePage rest

/-- Counts the `FPDF_CloseDocument` calls in a trace. -/
def countCloseDocument : List NCall → Nat
  | [] => 0
  | NCall.closeDocument _ :: rest => countCloseDocument rest + 1
  | _ :: rest => countCloseDocument rest

/-- Counts the `FPDF_LoadPage` calls in a trace. -/
def countLoadPage : List NCall → Nat
  | [] => 0
  | NCall.loadPage _ _ :: rest => countLoadPage rest + 1
  | _ :: rest => countLoadPage rest

/-- Counts the `FPDFBitmap_Create` calls in a trace. -/
def countBitmapCreate : List NCall → Nat
  | [] => 0
  | NCall.bitmapCreate _ _ _ :: rest => countBitmapCreate rest + 1
  | _ :: rest => countBitmapCreate rest

/-- Whether an `Except` result is a success. -/
def isOk {ε α : Type} : Except ε α → Bool
  | Except.ok _ => true
  | Except.error _ => false

/-- The rotation codes handed to `FPDF_RenderPageBitmap`, in trace order. -/
def rotationsPassed : List NCall → List (Option Int)
  | [] => []
  | NCall.renderPageBitmap _ _ _ _ _ _ rot _ :: rest => rot :: rotationsPassed rest
  | _ :: rest => rotationsPassed rest

/-- The `(width, height)` arguments of the `FPDFBitmap_Create` calls, in trace order. -/
def bitmapCreates : List NCall → List (Int × Int)
  | [] => []
  | NCall.bitmapCreate w h _ :: rest => (w, h) :: bitmapCreates rest
  | _ :: rest => bitmapCreates rest

/-- The `(width, height)` arguments of the `FPDFBitmap_FillRect` calls, in trace order. -/
def fillRectDims : List NCall → List (Int × Int)
  | [] => []
  | NCall.fillRect _ _ _ w h _ :: rest => (w, h) :: fillRectDims rest
  | _ :: rest => fillRectDims rest

theorem countDestroy_append (a b : List NCall) :
    countDestroy (a ++ b) = countDestroy a + countDestroy b := by
  induction a with
  | nil => simp [countDestroy]
  | cons x rest ih => cases x <;> simp [countDestroy, ih] <;> omega

theorem countClosePage_append (a b : List NCall) :
    countClosePage (a ++ b) = countClosePage a + countClosePage b := by
  induction a with
  | nil => simp [countClosePage]
  | cons x rest ih => cases x <;> simp [countClosePage, ih] <;> omega

theorem countCloseDocument_append (a b : List NCall) :
    countCloseDocument (a ++ b) = countCloseDocument a + countCloseDocument b := by
  induction a with
  | nil => simp [countCloseDocument]
  | cons x rest ih => cases x <;> simp [countCloseDocument, ih] <;> omega

theorem countLoadPage_append (a b : List NCall) :
    countLoadPage (a ++ b) = countLoadPage a + countLoadPage b := by
  induction a with
  | nil => simp [countLoadPage]
  | cons x rest ih => cases x <;> simp [countLoadPage, ih] <;> omega

theorem countBitmapCreate_append (a b : List NCall) :
    countBitmapCreate (a ++ b) = countBitmapCreate a + countBitmapCreate b := by
  induction a with
  | nil => simp [countBitmapCreate]
  | cons x rest ih => cases x <;> simp [countBitmapCreate, ih] <;> omega

theorem rotationsPassed_append (a b : List NCall) :
    rotationsPassed (a ++ b) = rotationsPassed a ++ rotationsPassed b := by
  induction a with
  | nil => simp [rotationsPassed]
  | cons x rest ih => cases x <;> simp [rotationsPassed, ih]

theorem bitmapCreates_append (a b : List NCall) :
    bitmapCreates (a ++ b) = bitmapCreates a ++ bitmapCreates b := by
  induction a with
  | nil => simp [bitmapCreates]
  | cons x rest ih => cases x <;> simp [bitmapCreates, ih]

theorem fillRectDims_append (a b : List NCall) :
    fillRectDims (a ++ b) = fillRectDims a ++ fillRectDims b := by
  induction a with
  | nil => simp [fillRectDims]
  | cons x rest ih => cases x <;> simp [fillRectDims, ih]

theorem ctypes_contents_error_ty (env : NativeEnv) (cbuffer : Option Nat) (n : Int)
    (e : PyExc) (h : ctypes_contents env cbuffer n = Except.error e) :
    e.ty = ExcType.valueError := by
  simp only [ctypes_contents] at h
  repeat' split at h
  all_goals first
    | exact Except.noConfusion h
    | (injection h with h1; subst h1; rfl)

theorem Image_frombuffer_error_ty (width height : Int) (data : List Nat) (e : PyExc)
    (h : Image_frombuffer width height data = Except.error e) :
    e.ty = ExcType.valueError := by
  simp only [Image_frombuffer] at h
  split at h
  · injection h with h1; subst h1; rfl
  · exact Except.noConfusion h

theorem Image_frombuffer_ok_size (width height : Int) (data : List Nat) (img : PILImage)
    (h : Image_frombuffer width height data = Except.ok img) :
    img.size = (width, height) := by
  simp only [Image_frombuffer] at h
  split at h
  · exact Except.noConfusion h
  · injection h with h1; subst h1; rfl

/-- A concrete well-behaved native library for witnesses: a 3-page document behind
handle 7, pages of 2×1 points, bitmap handle 13, a non-null buffer at pointer 50
whose byte at offset `i` is `i`. -/
def env_ok : NativeEnv :=
  { abspath := fun s => s
    loadDocument := fun _ _ => Option.some 7
    getPageCount := fun _ => 3
    loadPage := fun _ _ => Option.some 11
    getPageWidthF := fun _ => 2
    getPageHeightF := fun _ => 1
    bitmapCreate := fun _ _ _ => Option.some 13
    getBuffer := fun _ => Option.some 50
    mem := fun _ i => i }

/-- Like `env_ok`, but `FPDFBitmap_GetBuffer` returns NULL, so the buffer decode
step faults with `ValueError` after all native resources have been allocated. -/
def env_nullbuf : NativeEnv :=
  { env_ok with getBuffer := fun _ => Option.none }

/-- Like `env_ok`, but the loaded document reports zero pages, so
`PdfContext.__enter__` faults after the native load already returned handle 7. -/
def env_zeropages : NativeEnv :=
  { env_ok with getPageCount := fun _ => 0 }

/-- Like `env_ok`, but the native load fails (returns a NULL document handle) and
the page count reported for the NULL handle is 0. -/
def env_loadfail : NativeEnv :=
  { env_ok with
    loadDocument := fun _ _ => Option.none
    getPageCount := fun _ => 0 }

/-- A concrete context-manager body for witnesses: renders page 0 of `env_ok`. -/
def bodyRender (pdf : FPDF_DOCUMENT) : Except PyExc PILImage × List NCall :=
  render_page env_ok pdf 0 1 0 0xFFFFFFFF true (OptimiseArg.valid OptimiseMode.lcd_display)

/-- A trivial context-manager body that succeeds without touching the library. -/
def bodyNoop (_pdf : FPDF_DOCUMENT) : Except PyExc Nat × List NCall :=
  (Except.ok 0, [])

/-- C1, counterexample: with a NULL bitmap buffer, decoding (step 8) faults with
`ValueError` after page and bitmap were allocated, and the fault propagates with
no `FPDFBitmap_Destroy` and no `FPDF_ClosePage` call — the claim's release
guarantee fails. -/
theorem render_page_decode_fault_leak_cex :
    render_page env_nullbuf (Option.some 7) 0 1 0 0xFFFFFFFF true
        (OptimiseArg.valid OptimiseMode.lcd_display) =
      (Except.error (PyExc.mk ExcType.valueError "NULL pointer access" Option.none),
       [NCall.getPageCount (Option.some 7), NCall.loadPage (Option.some 7) 0,
        NCall.getPageWidthF (Option.some 11), NCall.getPageHeightF (Option.some 11),
        NCall.bitmapCreate 2 1 0, NCall.fillRect (Option.some 13) 0 0 2 1 4294967295,
        NCall.renderPageBitmap (Option.some 13) (Option.some 11) 0 0 2 1 (Option.some 0) 3,
        NCall.getBuffer (Option.some 13)]) ∧
    countDestroy (render_page env_nullbuf (Option.some 7) 0 1 0 0xFFFFFFFF true
        (OptimiseArg.valid OptimiseMode.lcd_display)).2 = 0 ∧
    countClosePage (render_page env_nullbuf (Option.some 7) 0 1 0 0xFFFFFFFF true
        (OptimiseArg.valid OptimiseMode.lcd_display)).2 = 0 := by
  norm_num [render_page, env_nullbuf, env_ok, ctypes_contents, _translate_rotation,
    FPDF_ANNOT, FPDF_LCD_TEXT, countDestroy, countClosePage]
  all_goals decide

/-- C1 (amended): `render_page` releases the bitmap and page handles — bitmap
first, then page — only on the success path; on every faulting run (including a
fault while decoding the bitmap buffer) the fault propagates without any
`FPDFBitmap_Destroy` or `FPDF_ClosePage` call, so the already-acquired handles
are not released. -/
theorem render_page_release_only_on_success
    (env : NativeEnv) (pdf : FPDF_DOCUMENT) (page_index : Int) (scale : ℚ)
    (rotation : Int) (background_colour : Nat) ( render_annotations : Bool)
    (optimise_mode : OptimiseArg)
    (hbm : ∀ w h, env.bitmapCreate w h 0 ≠ Option.none) :
    (∀ e tr, render_page env pdf page_index scale rotation background_colour
        render_annotations optimise_mode = (Except.error e, tr) →
      countDestroy tr = 0 ∧ countClosePage tr = 0) ∧
    (∀ img tr, render_page env pdf page_index scale rotation background_colour
        render_annotations optimise_mode = (Except.ok img, tr) →
      ∃ pre bmp pg, tr = (pre ++ [NCall.bitmapDestroy bmp]) ++ [NCall.closePage pg]) := by
  constructor
  · intro e tr h
    simp only [render_page] at h
    repeat' split at h
    all_goals injection h with h1 h2
    all_goals
      first
        | exact Except.noConfusion h1
        | (subst h2; simp [countDestroy, countClosePage])
  · intro img tr h
    simp only [render_page] at h
    rcases hx : env.bitmapCreate
        (Int.ceil (env.getPageWidthF (env.loadPage pdf page_index) * scale))
        (Int.ceil (env.getPageHeightF (env.loadPage pdf page_index) * scale)) 0 with _ | b
    · exact absurd hx (hbm _ _)
    · simp only [hx] at h
      repeat' split at h
      all_goals injection h with h1 h2
      all_goals
        first
          | exact Except.noConfusion h1
          | (subst h2; exact ⟨_, _, _, rfl⟩)

/-- C1, witness: the theorem's fault branch applied to the concrete NULL-buffer
run, with every hypothesis discharged. -/
theorem render_page_release_only_on_success_witness :
    countDestroy
        [NCall.getPageCount (Option.some 7), NCall.loadPage (Option.some 7) 0,
         NCall.getPageWidthF (Option.some 11), NCall.getPageHeightF (Option.some 11),
         NCall.bitmapCreate 2 1 0, NCall.fillRect (Option.some 13) 0 0 2 1 4294967295,
         NCall.renderPageBitmap (Option.some 13) (Option.some 11) 0 0 2 1 (Option.some 0) 3,
         NCall.getBuffer (Option.some 13)] = 0 ∧
    countClosePage
        [NCall.getPageCount (Option.some 7), NCall.loadPage (Option.some 7) 0,
         NCall.getPageWidthF (Option.some 11), NCall.getPageHeightF (Option.some 11),
         NCall.bitmapCreate 2 1 0, NCall.fillRect (Option.some 13) 0 0 2 1 4294967295,
         NCall.renderPageBitmap (Option.some 13) (Option.some 11) 0 0 2 1 (Option.some 0) 3,
         NCall.getBuffer (Option.some 13)] = 0 :=
  (render_page_release_only_on_success env_nullbuf (Option.some 7) 0 1 0 0xFFFFFFFF true
      (OptimiseArg.valid OptimiseMode.lcd_display)
      (fun w h => by simp [env_nullbuf, env_ok])).1
    (PyExc.mk ExcType.valueError "NULL pointer access" Option.none)
    [NCall.getPageCount (Option.some 7), NCall.loadPage (Option.some 7) 0,
     NCall.getPageWidthF (Option.some 11), NCall.getPageHeightF (Option.some 11),
     NCall.bitmapCreate 2 1 0, NCall.fillRect (Option.some 13) 0 0 2 1 4294967295,
     NCall.renderPageBitmap (Option.some 13) (Option.some 11) 0 0 2 1 (Option.some 0) 3,
     NCall.getBuffer (Option.some 13)]
    (by
      norm_num [render_page, env_nullbuf, env_ok, ctypes_contents, _translate_rotation,
        FPDF_ANNOT, FPDF_LCD_TEXT]
      all_goals decide)

/-- C3, counterexample: with a valid page index and an unrecognised optimise mode,
the configuration fault is raised only after `FPDF_LoadPage` and
`FPDFBitmap_Create` were both called — it is not a pre-flight fault. -/
theorem render_page_config_error_after_alloc_cex :
    (render_page env_ok (Option.some 7) 0 1 0 0xFFFFFFFF true
        (OptimiseArg.invalid "OptimiseMode.bogus")).1 =
      Except.error (PyExc.mk ExcType.valueError
        "Invalid optimise_mode OptimiseMode.bogus" Option.none) ∧
    countLoadPage (render_page env_ok (Option.some 7) 0 1 0 0xFFFFFFFF true
        (OptimiseArg.invalid "OptimiseMode.bogus")).2 = 1 ∧
    countBitmapCreate (render_page env_ok (Option.some 7) 0 1 0 0xFFFFFFFF true
        (OptimiseArg.invalid "OptimiseMode.bogus")).2 = 1 := by
  norm_num [render_page, env_ok, countLoadPage, countBitmapCreate]
  all_goals decide

/-- C3 (amended): `PageIndexError` is indeed a pre-flight fault — it is raised
with no native call but the page-count query, before any page-load or
bitmap-creation call; the unrecognised-optimise-mode error, however, is raised
only after both the page-load call and the bitmap-creation call have been made. -/
theorem render_page_validation_order
    (env : NativeEnv) (pdf : FPDF_DOCUMENT) (page_index : Int) (scale : ℚ)
    (rotation : Int) (background_colour : Nat) ( render_annotations : Bool) :
    (∀ optimise_mode, ¬ (0 ≤ page_index ∧ page_index < env.getPageCount pdf) →
      render_page env pdf page_index scale rotation background_colour
          render_annotations optimise_mode =
        (Except.error (PyExc.mk ExcType.pageIndexError
          ("Page index " ++ toString page_index ++ " is out of bounds for document with "
            ++ toString (env.getPageCount pdf) ++ " pages.") Option.none),
         [NCall.getPageCount pdf])) ∧
    (∀ r, (0 ≤ page_index ∧ page_index < env.getPageCount pdf) →
      ∃ e tr, render_page env pdf page_index scale rotation background_colour
          render_annotations (OptimiseArg.invalid r) = (Except.error e, tr) ∧
        e.ty = ExcType.valueError ∧ countLoadPage tr = 1 ∧ countBitmapCreate tr = 1) := by
  constructor
  · intro om hno
    simp only [render_page]
    rw [if_pos hno]
  · intro r hyes
    simp only [render_page]
    rw [if_neg (not_not_intro hyes)]
    refine ⟨_, _, rfl, rfl, ?_, ?_⟩ <;> simp [countLoadPage, countBitmapCreate]

/-- C3, witness: the pre-flight branch of the theorem at a concrete out-of-range
index. -/
theorem render_page_validation_order_witness :
    render_page env_ok (Option.some 7) (-1) 1 0 0xFFFFFFFF true
        (OptimiseArg.valid OptimiseMode.lcd_display) =
      (Except.error (PyExc.mk ExcType.pageIndexError
        ("Page index " ++ toString (-1 : Int) ++ " is out of bounds for document with "
          ++ toString (env_ok.getPageCount (Option.some 7)) ++ " pages.") Option.none),
       [NCall.getPageCount (Option.some 7)]) :=
  (render_page_validation_order env_ok (Option.some 7) (-1) 1 0 0xFFFFFFFF true).1
    (OptimiseArg.valid OptimiseMode.lcd_display) (by norm_num [env_ok])

/-- C4, counterexample: rotation 45 is not rejected — the call succeeds, and the
rotation code handed to the rasteriser is `None` (the silent fall-through of
`_translate_rotation`), not a `ConfigurationError`. -/
theorem render_page_rotation_not_rejected_cex :
    isOk (render_page env_ok (Option.some 7) 0 1 45 0xFFFFFFFF true
        (OptimiseArg.valid OptimiseMode.lcd_display)).1 = true ∧
    rotationsPassed (render_page env_ok (Option.some 7) 0 1 45 0xFFFFFFFF true
        (OptimiseArg.valid OptimiseMode.lcd_display)).2 = [Option.none] := by
  norm_num [render_page, env_ok, ctypes_contents, Image_frombuffer, _translate_rotation,
    isOk, rotationsPassed]

/-- C4 (amended): `_translate_rotation` maps 0, 90, 180, 270 to the native codes
0, 1, 2, 3; every other rotation value maps to no code at all (`None`), and
`render_page` passes that value to the rasteriser unchanged instead of rejecting
it with a `ConfigurationError`. -/
theorem translate_rotation_mapping_passthrough
    (env : NativeEnv) (pdf : FPDF_DOCUMENT) (page_index : Int) (scale : ℚ)
    (background_colour : Nat) ( render_annotations : Bool) (m : OptimiseMode) :
    _translate_rotation 0 = Option.some 0 ∧
    _translate_rotation 90 = Option.some 1 ∧
    _translate_rotation 180 = Option.some 2 ∧
    _translate_rotation 270 = Option.some 3 ∧
    (∀ r, r ≠ 0 → r ≠ 90 → r ≠ 180 → r ≠ 270 → _translate_rotation r = Option.none) ∧
    (∀ r, (0 ≤ page_index ∧ page_index < env.getPageCount pdf) →
      rotationsPassed (render_page env pdf page_index scale r background_colour
          render_annotations (OptimiseArg.valid m)).2 = [_translate_rotation r]) := by
  refine ⟨by norm_num [_translate_rotation], by norm_num [_translate_rotation],
    by norm_num [_translate_rotation], by norm_num [_translate_rotation], ?_, ?_⟩
  · intro r h0 h90 h180 h270
    simp [_translate_rotation, h0, h90, h180, h270]
  · intro r hyes
    simp only [render_page]
    rw [if_neg (not_not_intro hyes)]
    repeat' split
    all_goals simp [rotationsPassed_append, rotationsPassed]

/-- C4, witness: the pass-through branch of the theorem at the concrete rotation
45 with a valid page index. -/
theorem translate_rotation_mapping_passthrough_witness :
    rotationsPassed (render_page env_ok (Option.some 7) 0 1 45 0xFFFFFFFF true
        (OptimiseArg.valid OptimiseMode.lcd_display)).2 = [_translate_rotation 45] :=
  (translate_rotation_mapping_passthrough env_ok (Option.some 7) 0 1 0xFFFFFFFF true
      OptimiseMode.lcd_display).2.2.2.2.2 45 (by norm_num [env_ok])

/-- C6: for every page index outside `[0, page_count)` `render_page` fails with a
`PageIndexError` whose message names the offending index and the document's page
count; for every index inside the range no `PageIndexError` is ever raised. -/
theorem render_page_page_index_check
    (env : NativeEnv) (pdf : FPDF_DOCUMENT) (page_index : Int) (scale : ℚ)
    (rotation : Int) (background_colour : Nat) ( render_annotations : Bool)
    (optimise_mode : OptimiseArg) :
    (¬ (0 ≤ page_index ∧ page_index < env.getPageCount pdf) →
      (render_page env pdf page_index scale rotation background_colour
          render_annotations optimise_mode).1 =
        Except.error (PyExc.mk ExcType.pageIndexError
          ("Page index " ++ toString page_index ++ " is out of bounds for document with "
            ++ toString (env.getPageCount pdf) ++ " pages.") Option.none)) ∧
    ((0 ≤ page_index ∧ page_index < env.getPageCount pdf) →
      ∀ e tr, render_page env pdf page_index scale rotation background_colour
          render_annotations optimise_mode = (Except.error e, tr) →
        e.ty ≠ ExcType.pageIndexError) := by
  constructor
  · intro hno
    simp only [render_page]
    rw [if_pos hno]
  · intro hyes e tr h
    simp only [render_page] at h
    rw [if_neg (not_not_intro hyes)] at h
    rcases optimise_mode with m | r
    · rcases hc : ctypes_contents env
          (env.getBuffer (env.bitmapCreate
            (Int.ceil (env.getPageWidthF (env.loadPage pdf page_index) * scale))
            (Int.ceil (env.getPageHeightF (env.loadPage pdf page_index) * scale)) 0))
          (Int.ceil (env.getPageWidthF (env.loadPage pdf page_index) * scale) *
            Int.ceil (env.getPageHeightF (env.loadPage pdf page_index) * scale) * 4)
        with e2 | data
      · simp only [hc] at h
        injection h with h1 h2
        injection h1 with h3
        subst h3
        rw [ctypes_contents_error_ty _ _ _ _ hc]
        decide
      · rcases hf : Image_frombuffer
            (Int.ceil (env.getPageWidthF (env.loadPage pdf page_index) * scale))
            (Int.ceil (env.getPageHeightF (env.loadPage pdf page_index) * scale)) data
          with e2 | pil
        · simp only [hc, hf] at h
          injection h with h1 h2
          injection h1 with h3
          subst h3
          rw [Image_frombuffer_error_ty _ _ _ _ hf]
          decide
        · simp only [hc, hf] at h
          injection h with h1 h2
          exact Except.noConfusion h1
    · injection h with h1 h2
      injection h1 with h3
      subst h3
      simp

/-- C6, witness: the out-of-range branch at index 5 of a 3-page document. -/
theorem render_page_page_index_check_witness :
    (render_page env_ok (Option.some 7) 5 1 0 0xFFFFFFFF true
        (OptimiseArg.valid OptimiseMode.lcd_display)).1 =
      Except.error (PyExc.mk ExcType.pageIndexError
        ("Page index " ++ toString (5 : Int) ++ " is out of bounds for document with "
          ++ toString (env_ok.getPageCount (Option.some 7)) ++ " pages.") Option.none) :=
  (render_page_page_index_check env_ok (Option.some 7) 5 1 0 0xFFFFFFFF true
      (OptimiseArg.valid OptimiseMode.lcd_display)).1 (by norm_num [env_ok])

/-- C7: every successful `render_page` call returns an image whose pixel size is
exactly `(ceil(page_width × scale), ceil(page_height × scale))`, the page
dimensions being those the native library reports for the loaded page. -/
theorem render_page_image_size
    (env : NativeEnv) (pdf : FPDF_DOCUMENT) (page_index : Int) (scale : ℚ)
    (rotation : Int) (background_colour : Nat) ( render_annotations : Bool)
    (optimise_mode : OptimiseArg) (img : PILImage) (tr : List NCall)
    (h : render_page env pdf page_index scale rotation background_colour
        render_annotations optimise_mode = (Except.ok img, tr)) :
    img.size = (Int.ceil (env.getPageWidthF (env.loadPage pdf page_index) * scale),
                Int.ceil (env.getPageHeightF (env.loadPage pdf page_index) * scale)) := by
  simp only [render_page] at h
  split at h
  · injection h with h1 h2
    exact Except.noConfusion h1
  · rcases optimise_mode with m | r
    · rcases hc : ctypes_contents env
          (env.getBuffer (env.bitmapCreate
            (Int.ceil (env.getPageWidthF (env.loadPage pdf page_index) * scale))
            (Int.ceil (env.getPageHeightF (env.loadPage pdf page_index) * scale)) 0))
          (Int.ceil (env.getPageWidthF (env.loadPage pdf page_index) * scale) *
            Int.ceil (env.getPageHeightF (env.loadPage pdf page_index) * scale) * 4)
        with e2 | data
      · simp only [hc] at h
        injection h with h1 h2
        exact Except.noConfusion h1
      · rcases hf : Image_frombuffer
            (Int.ceil (env.getPageWidthF (env.loadPage pdf page_index) * scale))
            (Int.ceil (env.getPageHeightF (env.loadPage pdf page_index) * scale)) data
          with e2 | pil
        · simp only [hc, hf] at h
          injection h with h1 h2
          exact Except.noConfusion h1
        · simp only [hc, hf] at h
          injection h with h1 h2
          injection h1 with h3
          subst h3
          exact Image_frombuffer_ok_size _ _ _ _ hf
    · injection h with h1 h2
      exact Except.noConfusion h1

/-- C7, witness: the theorem applied to a concrete successful render of a 2×1
point page at scale 1. -/
theorem render_page_image_size_witness :
    (PILImage.mk "RGBA" (2, 1) [2, 1, 0, 3, 6, 5, 4, 7]).size =
      (Int.ceil (env_ok.getPageWidthF (env_ok.loadPage (Option.some 7) 0) * 1),
       Int.ceil (env_ok.getPageHeightF (env_ok.loadPage (Option.some 7) 0) * 1)) :=
  render_page_image_size env_ok (Option.some 7) 0 1 0 0xFFFFFFFF true
    (OptimiseArg.valid OptimiseMode.lcd_display)
    (PILImage.mk "RGBA" (2, 1) [2, 1, 0, 3, 6, 5, 4, 7])
    [NCall.getPageCount (Option.some 7), NCall.loadPage (Option.some 7) 0,
     NCall.getPageWidthF (Option.some 11), NCall.getPageHeightF (Option.some 11),
     NCall.bitmapCreate 2 1 0, NCall.fillRect (Option.some 13) 0 0 2 1 4294967295,
     NCall.renderPageBitmap (Option.some 13) (Option.some 11) 0 0 2 1 (Option.some 0) 3,
     NCall.getBuffer (Option.some 13), NCall.bitmapDestroy (Option.some 13),
     NCall.closePage (Option.some 11)]
    (by
      norm_num [render_page, env_ok, ctypes_contents, Image_frombuffer, bgra_to_rgba,
        _translate_rotation, FPDF_ANNOT, FPDF_LCD_TEXT, List.range_succ]
      all_goals decide)

/-- C9: `render_page` performs no validation of `scale` — for any scale (in
particular any `scale ≤ 0`, where both ceil-computed dimensions are ≤ 0, given
nonnegative native page dimensions) the computed width and height are passed
unchecked to the bitmap-creation and fill calls. -/
theorem render_page_no_scale_validation
    (env : NativeEnv) (pdf : FPDF_DOCUMENT) (page_index : Int) (scale : ℚ)
    (rotation : Int) (background_colour : Nat) ( render_annotations : Bool)
    (optimise_mode : OptimiseArg)
    (hidx : 0 ≤ page_index ∧ page_index < env.getPageCount pdf)
    (hw : 0 ≤ env.getPageWidthF (env.loadPage pdf page_index))
    (hh : 0 ≤ env.getPageHeightF (env.loadPage pdf page_index)) :
    bitmapCreates (render_page env pdf page_index scale rotation background_colour
        render_annotations optimise_mode).2 =
      [(Int.ceil (env.getPageWidthF (env.loadPage pdf page_index) * scale),
        Int.ceil (env.getPageHeightF (env.loadPage pdf page_index) * scale))] ∧
    fillRectDims (render_page env pdf page_index scale rotation background_colour
        render_annotations optimise_mode).2 =
      [(Int.ceil (env.getPageWidthF (env.loadPage pdf page_index) * scale),
        Int.ceil (env.getPageHeightF (env.loadPage pdf page_index) * scale))] ∧
    (scale ≤ 0 →
      Int.ceil (env.getPageWidthF (env.loadPage pdf page_index) * scale) ≤ 0 ∧
      Int.ceil (env.getPageHeightF (env.loadPage pdf page_index) * scale) ≤ 0) := by
  refine ⟨?_, ?_, ?_⟩
  · simp only [render_page]
    rw [if_neg (not_not_intro hidx)]
    repeat' split
    all_goals simp [bitmapCreates_append, bitmapCreates]
  · simp only [render_page]
    rw [if_neg (not_not_intro hidx)]
    repeat' split
    all_goals simp [fillRectDims_append, fillRectDims]
  · intro hs
    have h1 : env.getPageWidthF (env.loadPage pdf page_index) * scale ≤ 0 :=
      mul_nonpos_of_nonneg_of_nonpos hw hs
    have h2 : env.getPageHeightF (env.loadPage pdf page_index) * scale ≤ 0 :=
      mul_nonpos_of_nonneg_of_nonpos hh hs
    exact ⟨Int.ceil_le.mpr (by exact_mod_cast h1), Int.ceil_le.mpr (by exact_mod_cast h2)⟩

/-- C9, witness: the theorem at the concrete scale −1, with the nonpositivity
implication discharged. -/
theorem render_page_no_scale_validation_witness :
    bitmapCreates (render_page env_ok (Option.some 7) 0 (-1) 0 0xFFFFFFFF true
        (OptimiseArg.valid OptimiseMode.lcd_display)).2 =
      [(Int.ceil (env_ok.getPageWidthF (env_ok.loadPage (Option.some 7) 0) * (-1)),
        Int.ceil (env_ok.getPageHeightF (env_ok.loadPage (Option.some 7) 0) * (-1)))] ∧
    Int.ceil (env_ok.getPageWidthF (env_ok.loadPage (Option.some 7) 0) * (-1)) ≤ 0 ∧
    Int.ceil (env_ok.getPageHeightF (env_ok.loadPage (Option.some 7) 0) * (-1)) ≤ 0 :=
  ⟨(render_page_no_scale_validation env_ok (Option.some 7) 0 (-1) 0 0xFFFFFFFF true
      (OptimiseArg.valid OptimiseMode.lcd_display) (by norm_num [env_ok])
      (by norm_num [env_ok]) (by norm_num [env_ok])).1,
   (render_page_no_scale_validation env_ok (Option.some 7) 0 (-1) 0 0xFFFFFFFF true
      (OptimiseArg.valid OptimiseMode.lcd_display) (by norm_num [env_ok])
      (by norm_num [env_ok]) (by norm_num [env_ok])).2.2 (by norm_num)⟩

/-- C5, counterexample: when the native load fails (NULL handle), the fault
raised by `__enter__` is `PageCountInvalidError`, not the `DocumentLoadError`
the claim requires. -/
theorem pdfcontext_enter_no_load_error_cex :
    env_loadfail.loadDocument "missing.pdf" Option.none = Option.none ∧
    PdfContext_enter env_loadfail (PdfContext.mk "missing.pdf" Option.none) =
      (Except.error (PyExc.mk ExcType.pageCountInvalidError
        "No pages could be recognised." Option.none),
       [NCall.loadDocument "missing.pdf" Option.none, NCall.getPageCount Option.none]) := by
  norm_num [PdfContext_enter, env_loadfail, env_ok]

/-- C5 (amended): `PdfContext.__enter__` never inspects the native load result
and never raises `DocumentLoadError`; after the load call (successful or not) it
raises `PageCountInvalidError` exactly when the reported page count is < 1, and
otherwise returns whatever handle the load call produced. -/
theorem pdfcontext_enter_error_taxonomy (env : NativeEnv) (ctx : PdfContext) :
    (env.getPageCount (env.loadDocument ctx.file_path ctx.password) < 1 →
      PdfContext_enter env ctx =
        (Except.error (PyExc.mk ExcType.pageCountInvalidError
          "No pages could be recognised." Option.none),
         [NCall.loadDocument ctx.file_path ctx.password,
          NCall.getPageCount (env.loadDocument ctx.file_path ctx.password)])) ∧
    (¬ env.getPageCount (env.loadDocument ctx.file_path ctx.password) < 1 →
      PdfContext_enter env ctx =
        (Except.ok (env.loadDocument ctx.file_path ctx.password),
         [NCall.loadDocument ctx.file_path ctx.password,
          NCall.getPageCount (env.loadDocument ctx.file_path ctx.password)])) ∧
    (∀ e tr, PdfContext_enter env ctx = (Except.error e, tr) →
      e.ty ≠ ExcType.documentLoadError) := by
  refine ⟨?_, ?_, ?_⟩
  · intro hlt
    simp only [PdfContext_enter]
    rw [if_pos hlt]
  · intro hge
    simp only [PdfContext_enter]
    rw [if_neg hge]
  · intro e tr h
    simp only [PdfContext_enter] at h
    split at h
    · injection h with h1 h2
      injection h1 with h3
      subst h3
      simp
    · injection h with h1 h2
      exact Except.noConfusion h1

/-- C5, witness: the page-count branch of the theorem at a document that loads
(handle 7) but reports zero pages. -/
theorem pdfcontext_enter_error_taxonomy_witness :
    PdfContext_enter env_zeropages (PdfContext.mk "doc.pdf" Option.none) =
      (Except.error (PyExc.mk ExcType.pageCountInvalidError
        "No pages could be recognised." Option.none),
       [NCall.loadDocument "doc.pdf" Option.none, NCall.getPageCount (Option.some 7)]) :=
  (pdfcontext_enter_error_taxonomy env_zeropages (PdfContext.mk "doc.pdf" Option.none)).1
    (by norm_num [env_zeropages, env_ok])

/-- C2, counterexample: a document that loads (the native call returns handle 7)
but reports zero pages makes the scope fault with `PageCountInvalidError`, and no
close-document call is ever made — the acquired document handle leaks. -/
theorem withPdfContext_zero_page_leak_cex :
    env_zeropages.loadDocument "doc.pdf" Option.none = Option.some 7 ∧
    withPdfContext env_zeropages "doc.pdf" Option.none bodyNoop =
      (Except.error (PyExc.mk ExcType.pageCountInvalidError
        "No pages could be recognised." Option.none),
       [NCall.loadDocument "doc.pdf" Option.none, NCall.getPageCount (Option.some 7)]) ∧
    countCloseDocument (withPdfContext env_zeropages "doc.pdf" Option.none bodyNoop).2 = 0 := by
  norm_num [withPdfContext, PdfContext_enter, PdfContext_init, env_zeropages, env_ok,
    bodyNoop, countCloseDocument]

/-- C2 (amended): after a successful `__enter__`, every exit of the scope —
including a fault raised by the body — performs a close-document call before the
result propagates; but when `__enter__` itself faults (page count < 1 after the
native load already produced a handle), the fault propagates with no
close-document call at all, leaking the document handle. -/
theorem withPdfContext_close_taxonomy {α : Type} (env : NativeEnv) (file_path : String)
    (password : Option String) (body : FPDF_DOCUMENT → Except PyExc α × List NCall) :
    (∀ pdf tre, PdfContext_enter env (PdfContext_init env file_path password)
        = (Except.ok pdf, tre) →
      1 ≤ countCloseDocument (withPdfContext env file_path password body).2) ∧
    (∀ e tre, PdfContext_enter env (PdfContext_init env file_path password)
        = (Except.error e, tre) →
      countCloseDocument (withPdfContext env file_path password body).2 = 0 ∧
      (withPdfContext env file_path password body).1 = Except.error e) := by
  constructor
  · intro pdf tre he
    rcases hb : body pdf with ⟨r, trb⟩
    rcases r with e2 | a <;>
      simp [withPdfContext, he, hb, PdfContext_exit, countCloseDocument_append,
        countCloseDocument] <;>
      omega
  · intro e tre he
    have htre : countCloseDocument tre = 0 := by
      simp only [PdfContext_enter, PdfContext_init] at he
      split at he
      · injection he with h1 h2
        subst h2
        simp [countCloseDocument]
      · injection he with h1 h2
        exact Except.noConfusion h1
    constructor
    · simp [withPdfContext, he, htre]
    · simp [withPdfContext, he]

/-- C2, witness: the close-on-exit branch of the theorem at a concrete
successfully opened document with a trivial body. -/
theorem withPdfContext_close_taxonomy_witness :
    1 ≤ countCloseDocument (withPdfContext env_ok "doc.pdf" Option.none bodyNoop).2 :=
  (withPdfContext_close_taxonomy env_ok "doc.pdf" Option.none bodyNoop).1
    (Option.some 7)
    [NCall.loadDocument "doc.pdf" Option.none, NCall.getPageCount (Option.some 7)]
    (by norm_num [PdfContext_enter, PdfContext_init, env_ok])

/-- C8: once `__enter__` succeeded, the native close-document call runs exactly
once on every exit path of the scope (the body itself making no close-document
call); in particular, on a body fault the document is closed and the fault (as
re-raised by `__exit__`) still propagates to the caller. -/
theorem withPdfContext_close_exactly_once {α : Type} (env : NativeEnv)
    (file_path : String) (password : Option String)
    (body : FPDF_DOCUMENT → Except PyExc α × List NCall)
    (pdf : FPDF_DOCUMENT) (tre : List NCall)
    (he : PdfContext_enter env (PdfContext_init env file_path password)
      = (Except.ok pdf, tre))
    (hb : countCloseDocument (body pdf).2 = 0) :
    countCloseDocument (withPdfContext env file_path password body).2 = 1 ∧
    (∀ e trb, body pdf = (Except.error e, trb) →
      (withPdfContext env file_path password body).1 =
        Except.error (PyExc.mk e.ty e.value Option.none) ∧
      NCall.closeDocument pdf ∈ (withPdfContext env file_path password body).2) := by
  have htre : countCloseDocument tre = 0 := by
    simp only [PdfContext_enter, PdfContext_init] at he
    split at he
    · injection he with h1 h2
      exact Except.noConfusion h1
    · injection he with h1 h2
      subst h2
      simp [countCloseDocument]
  constructor
  · rcases hb2 : body pdf with ⟨r, trb⟩
    rw [hb2] at hb
    have hb2' : countCloseDocument trb = 0 := hb
    rcases r with e2 | a <;>
      simp [withPdfContext, he, hb2, PdfContext_exit, countCloseDocument_append,
        countCloseDocument, htre, hb2']
  · intro e trb hbe
    constructor
    · simp [withPdfContext, he, hbe, PdfContext_exit]
    · simp [withPdfContext, he, hbe, PdfContext_exit]

/-- C8, witness: the theorem at a concrete successfully opened document with a
trivial body making no close-document call. -/
theorem withPdfContext_close_exactly_once_witness :
    countCloseDocument (withPdfContext env_ok "doc.pdf" Option.none bodyNoop).2 = 1 :=
  (withPdfContext_close_exactly_once env_ok "doc.pdf" Option.none bodyNoop (Option.some 7)
      [NCall.loadDocument "doc.pdf" Option.none, NCall.getPageCount (Option.some 7)]
      (by norm_num [PdfContext_enter, PdfContext_init, env_ok])
      (by norm_num [bodyNoop, countCloseDocument])).1

/-- C10: when a fault of type T with value V is pending, `__exit__` closes the
document, prints the original traceback, and raises a newly constructed
exception `T(V)` — same class, same single constructor argument, but with no
traceback attached, so whenever the original exception carried a traceback the
propagated exception is not the original object. -/
theorem pdfcontext_exit_reconstructs_exception (pdf : FPDF_DOCUMENT) (e : PyExc) :
    (PdfContext_exit pdf (Option.some e)).1 =
      Option.some (PyExc.mk e.ty e.value Option.none) ∧
    (PdfContext_exit pdf (Option.some e)).2 =
      [NCall.closeDocument pdf, NCall.printTraceback e.tb] ∧
    (e.tb ≠ Option.none → (PdfContext_exit pdf (Option.some e)).1 ≠ Option.some e) := by
  refine ⟨rfl, rfl, ?_⟩
  intro htb hcontra
  injection hcontra with h1
  apply htb
  have h2 := congrArg PyExc.tb h1
  simp at h2
  exact h2.symm

/-- C10, witness: the theorem at a concrete pending `ValueError` that carries a
traceback. -/
theorem pdfcontext_exit_reconstructs_exception_witness :
    (PdfContext_exit (Option.some 7)
        (Option.some (PyExc.mk ExcType.valueError "boom" (Option.some 3)))).1 =
      Option.some (PyExc.mk ExcType.valueError "boom" Option.none) ∧
    (PdfContext_exit (Option.some 7)
        (Option.some (PyExc.mk ExcType.valueError "boom" (Option.some 3)))).1 ≠
      Option.some (PyExc.mk ExcType.valueError "boom" (Option.some 3)) :=
  ⟨(pdfcontext_exit_reconstructs_exception (Option.some 7)
      (PyExc.mk ExcType.valueError "boom" (Option.some 3))).1,
   (pdfcontext_exit_reconstructs_exception (Option.some 7)
      (PyExc.mk ExcType.valueError "boom" (Option.some 3))).2.2 (by simp)⟩

end PyPdfium2
